import Mathlib

/-!
Shallow embedding of the thread-handle and synchronized-output primitives
exercised by the ch_03 example programs of async-programming-cpp.

The examples are thin demos over std::thread / std::jthread /
std::osyncstream.  The embedding models:
  * the handle state machine (spawn / join / detach / move / joinable /
    get_id / destructor) with the semantics the C++ standard library gives
    these operations and that the example files rely on and document in
    their comments;
  * argument capture for spawned callables (decay-copy by default,
    alias binding via std::ref), as demonstrated by 05_passing_args.cpp;
  * the synchronized sink (osyncstream): one write event atomically
    transfers one whole composed line, as demonstrated by
    03_cout_racefixed.cpp;
  * scoped handles (std::jthread inside JthreadWrapper from
    08_jthread.cpp): destruction in reverse construction order, joining on
    destruction;
  * the concrete worker functions of the examples (daemonThread,
    modifyValues, modifyVector, the yield-example work loop).
-/

namespace AsyncCpp

/-! ## ThreadHandle model

A std::thread object is a handle to an underlying OS unit of execution.
`tid = none` is the moved-from / joined / detached / default state, in
which `get_id()` reports the sentinel empty identity `std::thread::id()`.
-/

/-- A thread handle: owns at most one unit of execution, identified by a
numeric id.  `none` models a handle owning nothing (default-constructed,
moved-from, joined or detached), whose identity is the empty sentinel. -/
structure ThreadHandle where
  tid : Option Nat
deriving Repr, DecidableEq

/-- std::thread::get_id(): the identity of the owned unit, or the empty
sentinel (`none`) if the handle owns nothing. -/
def ThreadHandle.get_id (h : ThreadHandle) : Option Nat :=
  h.tid

/-- std::thread::joinable(): true iff the handle currently owns an
unjoined, undetached unit of execution. -/
def ThreadHandle.joinable (h : ThreadHandle) : Bool :=
  h.tid.isSome

/-- Process-wide state of units of execution: the ids of units currently
running, the ids of units that have completed and been joined or are
running detached, and the next fresh id. -/
structure Sys where
  running : List Nat
  finished : List Nat
  nextId : Nat
deriving Repr, DecidableEq

/-- The identity of the unit running `main` in every example. -/
def mainTid : Nat := 0

/-- Initial process state: only `main` is running, no unit spawned yet. -/
def Sys.init : Sys :=
  ⟨[mainTid], [], 1⟩

/-- std::thread construction with a callable: launches a fresh unit of
execution and returns the owning handle. -/
def spawn (s : Sys) : Sys × ThreadHandle :=
  (⟨s.nextId :: s.running, s.finished, s.nextId + 1⟩, ⟨some s.nextId⟩)

/-- Failure conditions of join/detach, per std::thread: a
std::system_error surfaced synchronously to the caller. -/
inductive ThreadError where
  | invalidOperation
  | selfJoinDeadlock
deriving Repr, DecidableEq

/-- std::thread::join() called by unit `caller`: blocks until the owned
unit completes, then the handle owns nothing.  Fails with an
invalid-operation condition on a handle owning no unit, and with a
deadlock condition on self-join.  The success state records the joined
unit as finished. -/
def join (caller : Nat) (s : Sys) (h : ThreadHandle) :
    Except ThreadError (Sys × ThreadHandle) :=
  match h.tid with
  | none => .error .invalidOperation
  | some t =>
    if t = caller then .error .selfJoinDeadlock
    else .ok (⟨s.running.erase t, t :: s.finished, s.nextId⟩, ⟨none⟩)

/-- std::thread::detach(): relinquishes ownership; the unit keeps running
autonomously (it stays in `running`).  Same invalid-operation condition as
join on a handle owning no unit. -/
def detach (s : Sys) (h : ThreadHandle) :
    Except ThreadError (Sys × ThreadHandle) :=
  match h.tid with
  | none => .error .invalidOperation
  | some _ => .ok (s, ⟨none⟩)

/-- The guarded join idiom of 01_thread_creation.cpp:
`if (t.joinable()) t.join();`. -/
def guardedJoin (caller : Nat) (s : Sys) (h : ThreadHandle) :
    Except ThreadError (Sys × ThreadHandle) :=
  if h.joinable then join caller s h else .ok (s, h)

/-- std::thread move construction `t2 = std::move(t1)` (09_move_threads.cpp):
only the bookkeeping handle changes owner.  The source is left owning
nothing; the destination assumes the source's prior association; the
process state — the underlying units of execution — is returned untouched. -/
def moveHandle (s : Sys) (a : ThreadHandle) : Sys × ThreadHandle × ThreadHandle :=
  (s, ⟨none⟩, ⟨a.tid⟩)

/-- Outcome of running the std::thread destructor. -/
inductive DtorOutcome where
  | returns
  | terminates
deriving Repr, DecidableEq

/-- std::thread destructor: if the handle is still joinable — it owns an
unjoined, undetached unit — std::terminate() is called (abrupt program
termination); otherwise the destructor returns normally. -/
def destroyHandle (h : ThreadHandle) : DtorOutcome :=
  if h.joinable then .terminates else .returns

/-! ## Argument capture for spawned callables (05_passing_args.cpp)

Arguments handed to the std::thread constructor are decay-copied into
storage owned by the new unit of execution unless wrapped in std::ref /
std::cref, which stores a reference_wrapper aliasing the caller's
original object. -/

/-- How one argument is passed at a spawn call site: the default
decay-copy, or the explicit std::ref alias marker. -/
inductive ArgMode where
  | byValue
  | byRef
deriving Repr, DecidableEq

/-- Thread-owned argument storage after capture: `some c` holds the
decay-copied value `c`; `none` records an alias to the caller's storage
(std::reference_wrapper). -/
def captureArg (mode : ArgMode) (caller : α) : Option α :=
  match mode with
  | .byValue => some caller
  | .byRef => none

/-- The spawned unit invokes the callable `f` on whatever its parameter
binds to — the thread-owned copy, or the caller's original storage — and
the callable's mutation lands there.  Returns the caller's storage after
the unit has run (observed post-join). -/
def runCaptured (f : α → α) (stored : Option α) (caller : α) : α :=
  match stored with
  | some c =>
    let _threadLocal := f c
    caller
  | none => f caller

/-- One spawn-join cycle passing a single argument in the given mode:
what the caller's original storage holds after the join
(05_passing_args.cpp, cases 01 vs 02/06). -/
def spawnJoinArg (mode : ArgMode) (f : α → α) (caller : α) : α :=
  runCaptured f (captureArg mode caller) caller

/-- modifyValues from 05_passing_args.cpp:
`str += " (Thread)"; val++;`. -/
def modifyValues (arg : String × Int) : String × Int :=
  (arg.1 ++ " (Thread)", arg.2 + 1)

/-- modifyVector from 05_passing_args.cpp:
`for (auto& elem : vec) elem = elem + elem;`. -/
def modifyVector (vec : List Int) : List Int :=
  vec.map (fun elem => elem + elem)

/-! ## SynchronizedSink (03_cout_racefixed.cpp)

std::osyncstream buffers one composed line and atomically transfers the
whole buffer to the wrapped stream on destruction: the destination is a
sequence of whole composed lines, one per write event.  A concurrent run
of N writers, each looping M identical writes, is an interleaving of the
writers' event sequences: a permutation of M write events per writer. -/

/-- One atomic sink write event is tagged with the writer that issued it;
the destination receives that writer's whole composed line.  The run of a
schedule of events is the list of lines in destination order. -/
def sinkRun (lines : Nat → String) (schedule : List Nat) : List String :=
  schedule.map lines

/-- The multiset of write events of N writers with M writes each, in one
canonical order: every concurrent schedule is a permutation of this. -/
def writeEvents (numWriters iters : Nat) : List Nat :=
  ((List.range numWriters).map (fun w => List.replicate iters w)).flatten

/-- The composed lines of 03_cout_racefixed.cpp: t1 emits "1 2 3 4 ",
t2 emits "5 6 7 8 ", each followed by the line terminator. -/
def raceFixedLine : Nat → String
  | 0 => "1 2 3 4 "
  | _ => "5 6 7 8 "

/-! ## Scoped handles (08_jthread.cpp)

JthreadWrapper owns a std::jthread and a name.  Its destructor prints a
message, then the member jthread's destructor joins the unit (blocking
until it completes).  C++ destroys automatic objects of one scope in
reverse construction order. -/

/-- Events observable while a scope of JthreadWrapper objects is torn
down. -/
inductive JEv where
  | destroyed (name : String)
  | joinCompleted (name : String)
deriving Repr, DecidableEq

/-- State during scope teardown: which wrappers' units have completed
(their join returned), and the event trace so far. -/
structure JState where
  completed : List String
  trace : List JEv
deriving Repr, DecidableEq

/-- Destroying one JthreadWrapper: the destructor body runs, then the
member std::jthread is destroyed; if it is still joinable its unit is
joined — control does not proceed until the unit has completed.  A
non-joinable member is released without blocking. -/
def destroyScoped (stillJoinable : String → Bool) (st : JState) (name : String) :
    JState :=
  if stillJoinable name then
    ⟨name :: st.completed, st.trace ++ [.destroyed name, .joinCompleted name]⟩
  else
    ⟨st.completed, st.trace ++ [.destroyed name]⟩

/-- Scope exit over the wrappers constructed in `names` order: C++ runs
the destructors in reverse construction order. -/
def scopeExit (stillJoinable : String → Bool) (names : List String)
    (st : JState) : JState :=
  names.reverse.foldl (destroyScoped stillJoinable) st

/-- The wrapper names in the order their destructors ran, read back off
the teardown trace. -/
def destructionOrder (tr : List JEv) : List String :=
  tr.filterMap (fun e => match e with
    | .destroyed n => some n
    | .joinCompleted _ => none)

/-! ## Daemon worker (07_daemon_threads.cpp) -/

/-- The daemonThread loop, `while (timeout-- > 0) { ... }`, starting from
the given value of the shared `timeout` counter: the condition tests the
counter and then decrements it on every evaluation, including the failing
one.  Returns the number of executions of the sleep-and-print body and
the final value of the counter. -/
def daemonRun (timeout : Int) : Nat × Int :=
  if 0 < timeout then
    let rest := daemonRun (timeout - 1)
    (rest.1 + 1, rest.2)
  else
    (0, timeout - 1)
termination_by timeout.toNat
decreasing_by
  omega

/-- The initial value of the shared timeout counter in
07_daemon_threads.cpp. -/
def daemonTimeout : Int := 3

/-! ## Cooperative-yield worker (10_yield_thread.cpp) -/

/-- The condition of the work lambda's loop `while (true) { ... }` as a
function of the iteration index: the body chooses between working and
yielding but contains no break or return, so the condition is the literal
`true` at every iteration. -/
def yieldLoopCond (_iteration : Nat) : Bool := true

/-- The work loop terminates iff its condition ever evaluates to false. -/
def yieldWorkerTerminates : Prop :=
  ∃ n, yieldLoopCond n = false

/-- 10_yield_thread.cpp main: the main unit reaches `return 0`, then the
std::jthread members t2 and t1 are destroyed; each destructor requests
stop (which the work lambda never observes — it takes no stop token) and
joins.  The process completes only if both workers' loops terminate. -/
def yield_thread_main_completes : Prop :=
  yieldWorkerTerminates

/-! ## The example main entry points

Each example is a standalone `main` with no arguments.  The embeddings
run the spawn/join traffic through the handle model above and return the
exit code produced by `return 0` in the source; an embedding evaluates to
an error instead if some join or detach it performs would fail. -/

/-- 01_thread_creation.cpp main: spawns t1..t6 from six callable forms,
then joins each behind an `if (joinable)` guard and returns 0. -/
def thread_creation_main : Except ThreadError Nat := do
  let (s, t1) := spawn Sys.init
  let (s, t2) := spawn s
  let (s, t3) := spawn s
  let (s, t4) := spawn s
  let (s, t5) := spawn s
  let (s, t6) := spawn s
  let (s, _) ← guardedJoin mainTid s t1
  let (s, _) ← guardedJoin mainTid s t2
  let (s, _) ← guardedJoin mainTid s t3
  let (s, _) ← guardedJoin mainTid s t4
  let (s, _) ← guardedJoin mainTid s t5
  let (_, _) ← guardedJoin mainTid s t6
  pure 0

/-- 03_cout_racefixed.cpp main: spawns the two writer threads, joins both,
returns 0. -/
def cout_racefixed_main : Except ThreadError Nat := do
  let (s, t1) := spawn Sys.init
  let (s, t2) := spawn s
  let (s, _) ← join mainTid s t1
  let (_, _) ← join mainTid s t2
  pure 0

/-- 04_identify_thread.cpp main: spawns t, prints the two ids, joins,
returns 0. -/
def identify_thread_main : Except ThreadError Nat := do
  let (s, t) := spawn Sys.init
  let (_, _) ← join mainTid s t
  pure 0

/-- 05_passing_args.cpp main: runs the six argument-passing
demonstrations through sequential spawn-join cycles and returns 0,
together with the caller-visible storage the source prints at the end
(str_ref, val, vec_2). -/
def passing_args_main : (String × Int) × List Int × Nat :=
  let str_val := "Passing by value"
  let _t1 := spawnJoinArg .byValue (fun p => p) (str_val, (1 : Int))
  let refArgs := spawnJoinArg .byRef modifyValues ("Passing by reference", (1 : Int))
  let vec : List Int := [1, 2, 3, 4, 5]
  let _t3 := spawnJoinArg .byValue (fun v => v) vec
  let vec_2 : List Int := [1, 2, 3, 4, 5]
  let vec_2 := spawnJoinArg .byRef modifyVector vec_2
  (refArgs, vec_2, 0)

/-- 06_return_vals.cpp func: `result = 1 + (rand() % 10);` writing through
the reference-bound shared `result`; the random draw is a parameter. -/
def return_vals_func (draw : Nat) (_result : Int) : Int :=
  1 + Int.ofNat (draw % 10)

/-- 06_return_vals.cpp main: two sequential spawn-join cycles (the second
through a lambda capturing `result` by reference), each storing into the
shared `result`; returns the final `result` and exit code 0. -/
def return_vals_main (draw1 draw2 : Nat) : Int × Nat :=
  let result : Int := 0
  let result := spawnJoinArg .byRef (return_vals_func draw1) result
  let result := spawnJoinArg .byRef (return_vals_func draw2) result
  (result, 0)

/-- 07_daemon_threads.cpp main: spawns the daemon, detaches it, sleeps,
returns 0.  Also returns the daemon handle as it stands at scope exit,
after the detach. -/
def daemon_threads_main : Except ThreadError (ThreadHandle × Nat) := do
  let (s, daemon) := spawn Sys.init
  let (_, daemon) ← detach s daemon
  pure (daemon, 0)

/-- 08_jthread.cpp main: constructs the wrappers t1, t2, t3 in that
order, sleeps, prints, and returns 0; scope exit then tears the wrappers
down.  Every wrapper's jthread is joinable at teardown (none was joined
or detached by hand).  Returns the teardown state and the exit code. -/
def jthread_main : JState × Nat :=
  (scopeExit (fun _ => true) ["t1", "t2", "t3"] ⟨[], []⟩, 0)

/-- 09_move_threads.cpp main: spawns t1, moves it into t2, joins t2,
returns 0. -/
def move_threads_main : Except ThreadError Nat := do
  let (s, t1) := spawn Sys.init
  let (s, _t1moved, t2) := moveHandle s t1
  let (_, _) ← join mainTid s t2
  pure 0

/-! ## Helper lemmas -/

/-- Unfolding writeEvents at a successor writer count. -/
theorem writeEvents_succ (N M : Nat) :
    writeEvents (N + 1) M = writeEvents N M ++ List.replicate M N := by
  simp [writeEvents, List.range_succ]

/-- N writers issuing M write events each issue N * M events. -/
theorem length_writeEvents (N M : Nat) : (writeEvents N M).length = N * M := by
  induction N with
  | zero => simp [writeEvents]
  | succ n ih => simp [writeEvents_succ, ih, Nat.succ_mul]

/-- Every write event of writeEvents N M is tagged with a writer below N. -/
theorem mem_writeEvents (N M w : Nat) (hw : w ∈ writeEvents N M) : w < N := by
  induction N with
  | zero => simp [writeEvents] at hw
  | succ n ih =>
    rw [writeEvents_succ] at hw
    rcases List.mem_append.1 hw with h | h
    · exact Nat.lt_succ_of_lt (ih h)
    · exact List.eq_of_mem_replicate h ▸ Nat.lt_succ_self n

/-- Each writer below N is tagged on exactly M events of writeEvents N M. -/
theorem count_writeEvents (N M w : Nat) (hw : w < N) :
    (writeEvents N M).count w = M := by
  induction N with
  | zero => omega
  | succ n ih =>
    rw [writeEvents_succ, List.count_append, List.count_replicate]
    by_cases h : w < n
    · have hne : (n == w) = false := by
        simp only [beq_eq_false_iff_ne]
        omega
      rw [ih h, hne]
      simp
    · have hwn : w = n := by omega
      have hzero : (writeEvents n M).count w = 0 := by
        rw [List.count_eq_zero]
        intro hmem
        exact absurd (mem_writeEvents n M w hmem) h
      subst hwn
      rw [hzero]
      simp

/-- The number of daemonThread loop-body executions from a given timeout
value is its positive part. -/
theorem daemonRun_iters (t : Int) : (daemonRun t).1 = t.toNat := by
  rw [daemonRun]
  by_cases ht : 0 < t
  · rw [if_pos ht]
    have ih := daemonRun_iters (t - 1)
    simp only [ih]
    omega
  · rw [if_neg ht]
    omega
termination_by t.toNat
decreasing_by omega

/-- Scope teardown only ever adds names to the completed set. -/
theorem mem_completed_foldl (sj : String → Bool) (l : List String)
    (st : JState) (x : String) (hx : x ∈ st.completed) :
    x ∈ (l.foldl (destroyScoped sj) st).completed := by
  induction l generalizing st with
  | nil => exact hx
  | cons n l ih =>
    apply ih
    unfold destroyScoped
    by_cases h : sj n
    · rw [if_pos h]
      exact List.mem_cons_of_mem n hx
    · rw [if_neg h]
      exact hx

/-- Folding destroyScoped over a name list destroys exactly those names
in list order, appended to whatever the trace already recorded. -/
theorem destructionOrder_foldl (sj : String → Bool) (l : List String)
    (st : JState) :
    destructionOrder ((l.foldl (destroyScoped sj) st)).trace =
      destructionOrder st.trace ++ l := by
  induction l generalizing st with
  | nil => simp
  | cons n l ih =>
    rw [List.foldl_cons, ih]
    unfold destroyScoped
    by_cases h : sj n
    · rw [if_pos h]
      simp [destructionOrder]
    · rw [if_neg h]
      simp [destructionOrder]

/-- A still-joinable wrapper in the teardown list ends up joined: its unit
is in the completed set once the fold has passed it. -/
theorem joinable_completed_foldl (sj : String → Bool) (l : List String)
    (st : JState) (n : String) (hn : n ∈ l) (hj : sj n = true) :
    n ∈ (l.foldl (destroyScoped sj) st).completed := by
  induction l generalizing st with
  | nil => cases hn
  | cons m l ih =>
    rw [List.foldl_cons]
    rcases List.mem_cons.1 hn with rfl | hmem
    · apply mem_completed_foldl
      unfold destroyScoped
      rw [hj]
      simp
    · exact ih _ hmem

/-! ## Claim theorems -/

/-- C1: after the ownership transfer move(a), the source handle has the
empty sentinel identity and is no longer joinable, while the destination
reports a's prior identity and a's prior joinability unchanged; the
process state — the underlying units of execution — is undisturbed by the
transfer. -/
theorem move_transfers_handle_only (s : Sys) (a : ThreadHandle) :
    (moveHandle s a).2.1.get_id = none ∧
    (moveHandle s a).2.1.joinable = false ∧
    (moveHandle s a).2.2.get_id = a.get_id ∧
    (moveHandle s a).2.2.joinable = a.joinable ∧
    (moveHandle s a).1 = s := by
  simp [moveHandle, ThreadHandle.get_id, ThreadHandle.joinable]

/-- C4: a mutation the spawned callable makes through a std::ref
alias-marked argument is observable post-join through the caller's
original storage, while a mutation of a default decay-copied argument
leaves the caller's original storage unchanged — in general, and on the
concrete modifyValues demonstration of 05_passing_args.cpp. -/
theorem ref_arg_visible_value_arg_not :
    (∀ (α : Type) (f : α → α) (v : α),
      spawnJoinArg .byRef f v = f v ∧ spawnJoinArg .byValue f v = v) ∧
    spawnJoinArg ArgMode.byRef modifyValues ("Passing by reference", 1) =
      ("Passing by reference (Thread)", 2) ∧
    spawnJoinArg ArgMode.byValue modifyValues ("Passing by reference", 1) =
      ("Passing by reference", 1) :=
  ⟨fun _ _ _ => ⟨rfl, rfl⟩, rfl, rfl⟩

/-- C5: destroying a ThreadHandle that still owns an unjoined, undetached
unit of execution terminates the program abruptly, never silently; a
handle emptied first — as 07_daemon_threads.cpp empties its daemon handle
by detaching — is destroyed without incident. -/
theorem joinable_dtor_terminates :
    (∀ h : ThreadHandle, h.joinable = true →
      destroyHandle h = DtorOutcome.terminates) ∧
    daemon_threads_main = .ok (⟨none⟩, 0) ∧
    destroyHandle ⟨none⟩ = DtorOutcome.returns := by
  refine ⟨fun h hj => ?_, rfl, rfl⟩
  simp [destroyHandle, hj]

/-- C5 witness: destroying a concrete joinable handle terminates the
program. -/
theorem joinable_dtor_terminates_witness :
    destroyHandle ⟨some 1⟩ = DtorOutcome.terminates :=
  joinable_dtor_terminates.1 ⟨some 1⟩ rfl

/-- C7: join and detach on a handle owning no unit (already joined,
detached, or moved-from) fail synchronously with the invalid-operation
condition; the guarded-join idiom of 01_thread_creation.cpp never
triggers that condition, and that example's main completes with exit
code 0. -/
theorem join_empty_handle_invalid_op :
    (∀ (caller : Nat) (s : Sys) (h : ThreadHandle), h.joinable = false →
      join caller s h = .error ThreadError.invalidOperation ∧
      detach s h = .error ThreadError.invalidOperation) ∧
    (∀ (caller : Nat) (s : Sys) (h : ThreadHandle),
      guardedJoin caller s h ≠ .error ThreadError.invalidOperation) ∧
    thread_creation_main = .ok 0 := by
  refine ⟨fun caller s h hj => ?_, fun caller s h => ?_, rfl⟩
  · have ht : h.tid = none := by
      simpa [ThreadHandle.joinable, Option.isSome_iff_exists] using hj
    simp [join, detach, ht]
  · unfold guardedJoin
    by_cases hj : h.joinable
    · rw [if_pos hj]
      obtain ⟨t, ht⟩ := Option.isSome_iff_exists.1 hj
      unfold join
      rw [ht]
      by_cases hc : t = caller
      · simp [hc]
      · simp [hc]
    · rw [if_neg hj]
      simp

/-- C7 witness: joining and detaching a concrete empty handle both
report the invalid-operation condition, and a concrete guarded join does
not. -/
theorem join_empty_handle_invalid_op_witness :
    (join mainTid Sys.init ⟨none⟩ = .error ThreadError.invalidOperation ∧
      detach Sys.init ⟨none⟩ = .error ThreadError.invalidOperation) ∧
    guardedJoin mainTid Sys.init ⟨none⟩ ≠ .error ThreadError.invalidOperation :=
  ⟨join_empty_handle_invalid_op.1 mainTid Sys.init ⟨none⟩ rfl,
   join_empty_handle_invalid_op.2.1 mainTid Sys.init ⟨none⟩⟩

/-- C8: spawn followed immediately by join completes: the join succeeds,
records the spawned unit as finished, and leaves the handle
non-joinable. -/
theorem spawn_join_nonjoinable (s : Sys) (hne : s.nextId ≠ mainTid) :
    ∃ s2 : Sys,
      join mainTid (spawn s).1 (spawn s).2 = .ok (s2, ⟨none⟩) ∧
      (ThreadHandle.mk none).joinable = false ∧
      s.nextId ∈ s2.finished := by
  refine ⟨⟨((spawn s).1).running.erase s.nextId, s.nextId :: s.finished,
    s.nextId + 1⟩, ?_, rfl, List.mem_cons_self _ _⟩
  simp [spawn, join, hne]

/-- C8 witness: from the initial process state, spawn then join succeeds
and the handle is non-joinable afterwards. -/
theorem spawn_join_nonjoinable_witness :
    ∃ s2 : Sys,
      join mainTid (spawn Sys.init).1 (spawn Sys.init).2 = .ok (s2, ⟨none⟩) ∧
      (ThreadHandle.mk none).joinable = false ∧
      Sys.init.nextId ∈ s2.finished :=
  spawn_join_nonjoinable Sys.init (by decide)

/-- C9: the daemonThread loop terminates: starting from the initial
timeout of 3 it runs its sleep-and-print body exactly 3 times — hence at
most 3 — decrementing the shared counter on every condition test, and in
general the body runs once per unit of the counter's initial positive
part. -/
theorem daemon_thread_terminates :
    daemonRun daemonTimeout = (3, -1) ∧
    (daemonRun daemonTimeout).1 ≤ 3 ∧
    (∀ t : Int, (daemonRun t).1 = t.toNat) := by
  have h3 : daemonRun daemonTimeout = (3, -1) := by
    rw [daemonRun, if_pos (by decide)]
    rw [daemonRun, if_pos (by decide)]
    rw [daemonRun, if_pos (by decide)]
    rw [daemonRun, if_neg (by decide)]
    norm_num [daemonTimeout]
  exact ⟨h3, by rw [h3], daemonRun_iters⟩

/-- C10: spawning modifyVector with a reference-wrapped vector
[1, 2, 3, 4, 5] and joining leaves the caller's vector at
[2, 4, 6, 8, 10]; in general modifyVector doubles every element in
place, preserving length and order. -/
theorem modify_vector_doubles :
    spawnJoinArg ArgMode.byRef modifyVector [1, 2, 3, 4, 5] =
      [2, 4, 6, 8, 10] ∧
    (∀ vec : List Int, (modifyVector vec).length = vec.length) ∧
    (∀ (vec : List Int) (i : Nat),
      (modifyVector vec)[i]? = vec[i]?.map (fun e => 2 * e)) := by
  refine ⟨rfl, fun vec => by simp [modifyVector], fun vec i => ?_⟩
  simp only [modifyVector, List.getElem?_map]
  cases vec[i]? with
  | none => rfl
  | some e => simp [two_mul]

/-- C2: a concurrent run of N writers, each performing M synchronized-sink
writes of a distinct composed line — any permutation of the writers' write
events — leaves the destination with exactly N×M lines, every line the
whole composed line of one writer (never a fragment or an interleaving),
and each writer's line appearing exactly M times. -/
theorem sink_concurrent_writes_atomic
    (numWriters iters : Nat) (lines : Nat → String) (schedule : List Nat)
    (hperm : schedule.Perm (writeEvents numWriters iters))
    (hinj : ∀ i, i < numWriters → ∀ j, j < numWriters →
      lines i = lines j → i = j) :
    (sinkRun lines schedule).length = numWriters * iters ∧
    (∀ l ∈ sinkRun lines schedule, ∃ w, w < numWriters ∧ l = lines w) ∧
    (∀ w, w < numWriters →
      (sinkRun lines schedule).count (lines w) = iters) := by
  have hmemN : ∀ x ∈ schedule, x < numWriters := fun x hx =>
    mem_writeEvents numWriters iters x (hperm.mem_iff.1 hx)
  refine ⟨?_, ?_, ?_⟩
  · rw [sinkRun, List.length_map, hperm.length_eq, length_writeEvents]
  · intro l hl
    obtain ⟨w, hw, rfl⟩ := List.mem_map.1 hl
    exact ⟨w, hmemN w hw, rfl⟩
  · intro w hw
    have hcount : schedule.count w = iters := by
      rw [hperm.count_eq, count_writeEvents numWriters iters w hw]
    rw [sinkRun, List.count_eq_countP, List.countP_map]
    have h2 : schedule.countP ((fun x => x == lines w) ∘ lines) =
        schedule.countP (fun x => x == w) := by
      apply List.countP_congr
      intro x hx
      have hxN := hmemN x hx
      simp only [Function.comp_apply, beq_iff_eq]
      constructor
      · intro hlx
        exact hinj x hxN w hw hlx
      · intro hxw
        rw [hxw]
    rw [h2, ← List.count_eq_countP, hcount]

/-- C2 witness: the schedule alternating the two writers of
03_cout_racefixed.cpp, two writes each, yields four whole lines, every
line one writer's composed line, each appearing twice. -/
theorem sink_concurrent_writes_atomic_witness :
    (sinkRun raceFixedLine [0, 1, 0, 1]).length = 2 * 2 ∧
    (∀ l ∈ sinkRun raceFixedLine [0, 1, 0, 1],
      ∃ w, w < 2 ∧ l = raceFixedLine w) ∧
    (∀ w, w < 2 →
      (sinkRun raceFixedLine [0, 1, 0, 1]).count (raceFixedLine w) = 2) :=
  sink_concurrent_writes_atomic 2 2 raceFixedLine [0, 1, 0, 1]
    (by decide) (by decide)

/-- C3: a ScopedThreadHandle still joinable at scope exit joins — its
unit is completed before control returns past the scope's end — and
several constructed in one scope are destroyed in exactly the reverse of
their construction order. -/
theorem scoped_handles_teardown (sj : String → Bool) (names : List String) :
    destructionOrder (scopeExit sj names ⟨[], []⟩).trace = names.reverse ∧
    (∀ n ∈ names, sj n = true →
      n ∈ (scopeExit sj names ⟨[], []⟩).completed) := by
  constructor
  · rw [scopeExit, destructionOrder_foldl]
    simp [destructionOrder]
  · intro n hn hj
    exact joinable_completed_foldl sj names.reverse ⟨[], []⟩ n
      (List.mem_reverse.2 hn) hj

/-- C3 witness: the three wrappers of 08_jthread.cpp, all joinable at
scope exit, are destroyed t3, t2, t1 and each unit is completed at scope
end. -/
theorem scoped_handles_teardown_witness :
    destructionOrder
        (scopeExit (fun _ => true) ["t1", "t2", "t3"] ⟨[], []⟩).trace =
      ["t3", "t2", "t1"] ∧
    "t1" ∈ (scopeExit (fun _ => true) ["t1", "t2", "t3"] ⟨[], []⟩).completed := by
  constructor
  · rw [(scoped_handles_teardown (fun _ => true) ["t1", "t2", "t3"]).1]
    rfl
  · exact (scoped_handles_teardown (fun _ => true) ["t1", "t2", "t3"]).2
      "t1" (by simp) rfl

/-- C6 counterexample: the cooperative-yield example does not reach
normal completion: its work loop's condition is the literal true at every
iteration, so the workers never terminate and the jthread destructors
that run after main's return statement block forever — the process never
exits with code 0. -/
theorem yield_example_never_completes : ¬ yield_thread_main_completes := by
  intro hc
  have hc2 : ∃ n, yieldLoopCond n = false := hc
  obtain ⟨n, h⟩ := hc2
  simp [yieldLoopCond] at h

/-- C6 amended: every example program's main except the cooperative-yield
one reaches normal completion with exit code 0; the cooperative-yield
example never completes, because its worker loops have no exit condition
and its scoped handles join them on destruction. -/
theorem examples_complete_except_yield :
    thread_creation_main = .ok 0 ∧
    cout_racefixed_main = .ok 0 ∧
    identify_thread_main = .ok 0 ∧
    passing_args_main.2.2 = 0 ∧
    (∀ draw1 draw2 : Nat, (return_vals_main draw1 draw2).2 = 0) ∧
    daemon_threads_main = .ok (⟨none⟩, 0) ∧
    jthread_main.2 = 0 ∧
    move_threads_main = .ok 0 ∧
    (∀ iteration : Nat, yieldLoopCond iteration = true) :=
  ⟨rfl, rfl, rfl, rfl, fun _ _ => rfl, rfl, rfl, rfl, fun _ => rfl⟩

end AsyncCpp
